import Mathlib

/-!
Verification of the paginacare backend (Express + MySQL REST API).

The repository consists of four Express routers (admin.js, reviews.js, blog.js,
contact.js) issuing parameterized SQL against four tables (contacts, reviews,
admins, blog_posts).  Each route handler is embedded below as a pure Lean
function: the database is an explicit list of rows, NOW() is an explicit
timestamp parameter, and each handler returns its HTTP status code together
with the successor database state and the relevant response payload.

JavaScript string primitives used by the handlers (parseInt, Number, split,
the email / postal-code regexes, the HTML-stripping regex of the read-time
computation) are embedded as structurally recursive functions on character
lists so that they evaluate by kernel reduction.
-/

namespace PaginaCare

/-! ## JavaScript primitives -/

/-- Numeric value of a list of decimal digit characters (most significant first). -/
def digitsVal (ds : List Char) : Nat :=
  ds.foldl (fun a c => a * 10 + (c.toNat - 48)) 0

/-- Digit-prefix part of JS parseInt: longest leading run of decimal digits,
none when there is no leading digit (parseInt returns NaN). -/
def jsDigits (cs : List Char) : Option Nat :=
  let ds := cs.takeWhile Char.isDigit
  if ds.isEmpty then none else some (digitsVal ds)

/-- JS parseInt(s) in base 10: skip leading whitespace, optional sign, then the
longest prefix of decimal digits; none models NaN.  (The hexadecimal 0x prefix
of parseInt is not exercised by any input considered here.) -/
def jsParseInt (s : String) : Option Int :=
  match s.data.dropWhile Char.isWhitespace with
  | '-' :: rest => (jsDigits rest).map (fun n => -(n : Int))
  | '+' :: rest => (jsDigits rest).map (fun n => (n : Int))
  | cs => (jsDigits cs).map (fun n => (n : Int))

/-- JS (v || dflt) applied to the result of a numeric conversion: NaN (none)
and 0 are falsy and fall back to the default. -/
def jsOrDefault (v : Option Int) (dflt : Int) : Int :=
  match v with
  | none => dflt
  | some n => if n = 0 then dflt else n

/-- JS single-character split, as in header.split(' '): cuts the character
list at every separator occurrence, keeping empty segments. -/
def splitCharAux (sep : Char) (cs : List Char) (acc : List Char) : List (List Char) :=
  match cs with
  | [] => [acc.reverse]
  | c :: rest =>
    if c = sep then acc.reverse :: splitCharAux sep rest []
    else splitCharAux sep rest (c :: acc)

/-- A character allowed by the [^\s@]+ atoms of the email regex. -/
def emailChar (c : Char) : Bool :=
  !c.isWhitespace && c != '@'

/-- The email regex of contact.js and reviews.js: /^[^\s@]+@[^\s@]+\.[^\s@]+$/.
The string must be A@R with A a nonempty run of non-space non-@ characters
(hence A ends at the first @), R free of @ and whitespace, and R decomposable
as B.C with B, C nonempty - equivalently R has a dot that is neither its first
nor its last character.  (Lean's Char.isWhitespace stands in for the regex
class \s.) -/
def emailValid (s : String) : Bool :=
  let cs := s.data
  let a := cs.takeWhile (fun c => c != '@')
  match cs.dropWhile (fun c => c != '@') with
  | '@' :: r =>
    !a.isEmpty && a.all emailChar && !r.contains '@' && r.all emailChar &&
      ((r.drop 1).dropLast.contains '.')
  | _ => false

/-- The postal code regex of contact.js: /^\d{5}$/. -/
def postalCodeValid (s : String) : Bool :=
  s.data.length == 5 && s.data.all Char.isDigit

/-- One pass of the global replace of /<[^>]*>/ with the empty string
(blog.js read-time computation), driven by a fuel counter so that the
definition is structurally recursive.  The Bool state records whether the scan
is inside a tag; a tag is entered only when a closing angle bracket lies
ahead, since the regex requires one for a match. -/
def stripHtmlFuel (fuel : Nat) (inTag : Bool) (cs : List Char) : List Char :=
  match fuel, inTag, cs with
  | 0, _, rest => rest
  | _ + 1, _, [] => []
  | f + 1, true, c :: rest =>
    if c = '>' then stripHtmlFuel f false rest else stripHtmlFuel f true rest
  | f + 1, false, c :: rest =>
    if c = '<' && rest.contains '>' then stripHtmlFuel f true rest
    else c :: stripHtmlFuel f false rest

/-- content.replace(/<[^>]*>/g, '') on the character list of the content. -/
def stripHtml (cs : List Char) : List Char :=
  stripHtmlFuel cs.length false cs

/-- Number of maximal whitespace runs in a character list; the Bool records
whether the previous character was whitespace. -/
def wsRunsAux (inRun : Bool) (cs : List Char) : Nat :=
  match cs with
  | [] => 0
  | c :: rest =>
    if c.isWhitespace then (if inRun then 0 else 1) + wsRunsAux true rest
    else wsRunsAux false rest

/-- JS str.split(/\s+/).length: one more than the number of maximal whitespace
runs (split keeps the empty segments produced at either end). -/
def jsSplitWsCount (cs : List Char) : Nat :=
  1 + wsRunsAux false cs

/-- blog.js word count: content.replace(/<[^>]*>/g, '').split(/\s+/).length. -/
def jsWordCount (content : String) : Nat :=
  jsSplitWsCount (stripHtml content.data)

/-- blog.js read time: Math.max(1, Math.ceil(wordCount / 200)). -/
def jsReadTime (content : String) : Nat :=
  max 1 ((jsWordCount content + 199) / 200)

/-- JS truthiness filter on an optional string field of a request body:
a supplied empty string is falsy and behaves like an absent field wherever the
code tests the field with a plain if. -/
def truthyOpt (o : Option String) : Option String :=
  match o with
  | some s => if s = "" then none else some s
  | none => none

/-! ## Data model (database_schema.sql) -/

/-- A row of the contacts table. -/
structure Contact where
  id : Int
  name : String
  phone : String
  email : String
  postalCode : String
  createdAt : Nat
deriving Repr, DecidableEq

/-- A row of the reviews table. -/
structure Review where
  id : Int
  name : String
  email : String
  rating : Int
  comment : String
  approved : Bool
  createdAt : Nat
  updatedAt : Nat
deriving Repr, DecidableEq

/-- A row of the admins table. -/
structure Admin where
  id : Int
  username : String
  email : String
  password : String
  name : String
  active : Bool
deriving Repr, DecidableEq

/-- A row of the blog_posts table. -/
structure BlogPost where
  id : Int
  title : String
  slug : String
  excerpt : String
  content : String
  image : Option String
  category : String
  tags : Option String
  metaTitle : String
  metaDescription : String
  published : Bool
  featured : Bool
  readTime : Nat
  views : Nat
  authorId : Int
  createdAt : Nat
  updatedAt : Nat
deriving Repr, DecidableEq

/-! ## Sorting (ORDER BY createdAt DESC) -/

/-- Descending order on a Nat-valued key. -/
def keyGE {α : Type} (key : α → Nat) : α → α → Prop :=
  fun a b => key b ≤ key a

instance {α : Type} (key : α → Nat) : DecidableRel (keyGE key) :=
  fun a b => inferInstanceAs (Decidable (key b ≤ key a))

instance {α : Type} (key : α → Nat) : IsTotal α (keyGE key) :=
  ⟨fun a b => (Nat.le_total (key b) (key a)).imp id id⟩

instance {α : Type} (key : α → Nat) : IsTrans α (keyGE key) :=
  ⟨fun _ _ _ hab hbc => Nat.le_trans hbc hab⟩

/-- The ORDER BY createdAt DESC of the list queries: the rows sorted by
descending key.  (SQL fixes no tie-break; any order sorted by the key
satisfies every ordering property stated below.) -/
def sortByKeyDesc {α : Type} (key : α → Nat) (rows : List α) : List α :=
  rows.insertionSort (keyGE key)

theorem sortByKeyDesc_pairwise {α : Type} (key : α → Nat) (rows : List α) :
    (sortByKeyDesc key rows).Pairwise (fun a b => key b ≤ key a) :=
  List.sorted_insertionSort (keyGE key) rows

theorem sortByKeyDesc_perm {α : Type} (key : α → Nat) (rows : List α) :
    (sortByKeyDesc key rows).Perm rows :=
  List.perm_insertionSort (keyGE key) rows

theorem sortByKeyDesc_length {α : Type} (key : α → Nat) (rows : List α) :
    (sortByKeyDesc key rows).length = rows.length :=
  (sortByKeyDesc_perm key rows).length_eq

/-! ## Pagination (admin.js list handlers) -/

/-- The pagination envelope { page, limit, total, totalPages }. -/
structure PageInfo where
  page : Int
  limit : Int
  total : Nat
  totalPages : Nat
deriving Repr, DecidableEq

/-- Math.ceil(total / limit) for a positive integer limit. -/
def ceilPages (total : Nat) (limit : Nat) : Nat :=
  (total + limit - 1) / limit

/-- LIMIT offset, count with offset = (page - 1) * limit. -/
def paginate {α : Type} (rows : List α) (page limit : Int) : List α :=
  (rows.drop ((page - 1) * limit).toNat).take limit.toNat

/-- Lines 98-105 (and 172-179) of admin.js:
page = parseInt(req.query.page) || 1; limit = parseInt(req.query.limit) || d;
then the guard if (isNaN(page) || isNaN(limit) || page < 1 || limit < 1)
returns 400.  After the || fallback neither value can be NaN, so only the
sign checks remain. -/
def adminPageLimit (pageQ limitQ : Option String) (limitDefault : Int) :
    Except Nat (Int × Int) :=
  let page := jsOrDefault (pageQ.bind jsParseInt) 1
  let limit := jsOrDefault (limitQ.bind jsParseInt) limitDefault
  if page < 1 || limit < 1 then Except.error 400 else Except.ok (page, limit)

/-- Shared body of the admin.js list handlers once page and limit are fixed:
the filtered rows sorted by createdAt DESC, the requested slice, and the
pagination envelope with totalPages = Math.ceil(total / limit). -/
def adminListCore {α : Type} (key : α → Nat) (rows : List α) (page limit : Int) :
    List α × PageInfo :=
  (paginate (sortByKeyDesc key rows) page limit,
    ⟨page, limit, rows.length, ceilPages rows.length limit.toNat⟩)

/-- GET /api/admin/contacts (admin.js): paginated list of all contacts. -/
def adminContactsList (db : List Contact) (pageQ limitQ : Option String) :
    Except Nat (List Contact × PageInfo) :=
  match adminPageLimit pageQ limitQ 20 with
  | Except.error e => Except.error e
  | Except.ok (page, limit) =>
    Except.ok (adminListCore Contact.createdAt db page limit)

/-- The status filter of the review list handlers: status=pending keeps
unapproved rows, status=approved keeps approved rows, anything else keeps all. -/
def statusFilter (statusQ : Option String) (db : List Review) : List Review :=
  if statusQ = some "pending" then db.filter (fun r => !r.approved)
  else if statusQ = some "approved" then db.filter (fun r => r.approved)
  else db

/-- GET /api/admin/reviews (admin.js): paginated list of reviews with the
optional status filter applied to both the page query and the count query. -/
def adminReviewsList (db : List Review) (pageQ limitQ statusQ : Option String) :
    Except Nat (List Review × PageInfo) :=
  match adminPageLimit pageQ limitQ 20 with
  | Except.error e => Except.error e
  | Except.ok (page, limit) =>
    Except.ok (adminListCore Review.createdAt (statusFilter statusQ db) page limit)

/-- GET /api/reviews/admin (reviews.js): page = Number(req.query.page) || 1,
limit = Number(req.query.limit) || 10, with no validation whatsoever.
pageNum and limitNum are the results of the Number() conversions of the query
parameters (none models NaN).  MySQL rejects a negative LIMIT offset, count;
the thrown query error is caught and mapped to 500. -/
def reviewsAdminList (db : List Review) (pageNum limitNum : Option Int)
    (statusQ : Option String) : Except Nat (List Review × PageInfo) :=
  let page := jsOrDefault pageNum 1
  let limit := jsOrDefault limitNum 10
  if (page - 1) * limit < 0 || limit < 0 then Except.error 500
  else Except.ok (adminListCore Review.createdAt (statusFilter statusQ db) page limit)

/-! ## Reviews (reviews.js / admin.js) -/

/-- GET /api/reviews (reviews.js, public): SELECT * FROM reviews WHERE
approved = 1 ORDER BY createdAt DESC LIMIT 50.  The handler reads no query
parameter: queryParams is the raw query string of the request and is unused. -/
def publicReviews (db : List Review) (queryParams : List (String × String)) :
    List Review :=
  (sortByKeyDesc Review.createdAt (db.filter (fun r => r.approved))).take 50

/-- POST /api/reviews (reviews.js): validation (required fields truthy, email
regex, ratingNum = parseInt(rating) in [1,5], comment length in [10,1000]),
then INSERT with approved = 0 and createdAt = updatedAt = NOW(), answering 201
with the generated id.  The notification email that follows the insert cannot
alter the result (its error is caught and logged); see contactCreate where the
transport outcome is modeled explicitly. -/
def reviewCreate (db : List Review) (name email rating comment : String)
    (newId : Int) (now : Nat) : Nat × List Review × Option Int :=
  if name = "" || email = "" || rating = "" || comment = "" then (400, db, none)
  else if !emailValid email then (400, db, none)
  else
    match jsParseInt rating with
    | none => (400, db, none)
    | some n =>
      if n < 1 || 5 < n then (400, db, none)
      else if comment.length < 10 then (400, db, none)
      else if 1000 < comment.length then (400, db, none)
      else
        (201,
          db ++ [{ id := newId, name := name, email := email, rating := n,
                   comment := comment, approved := false, createdAt := now,
                   updatedAt := now }],
          some newId)

/-- The row transformation of UPDATE reviews SET approved = 1,
updatedAt = NOW() WHERE id = rid. -/
def approveRow (rid : Int) (now : Nat) (r : Review) : Review :=
  if r.id == rid then { r with approved := true, updatedAt := now } else r

/-- PUT /api/admin/reviews/:id/approve (admin.js) and PUT
/api/reviews/:id/approve (reviews.js), after the id parse: the UPDATE sets
approved = 1 and refreshes updatedAt on every row matching the id; since
updatedAt is always refreshed the row counts as changed, so affectedRows is
the number of matched rows and 404 is answered exactly when no row matches.
On success the handler re-selects the row and returns it. -/
def approveReview (db : List Review) (rid : Int) (now : Nat) :
    Nat × List Review × Option Review :=
  if db.any (fun r => r.id == rid) then
    let db' := db.map (approveRow rid now)
    (200, db', (db'.filter (fun r => r.id == rid)).head?)
  else (404, db, none)

/-! ## Contacts (contact.js) -/

/-- Outcome of the notification attempt: the transport is unconfigured
(SMTP_USER or CONTACT_EMAIL absent), the send succeeded, or the send threw
(the error is caught and logged inside the handler). -/
inductive EmailOutcome where
  | skipped
  | sent
  | failed
deriving Repr, DecidableEq

/-- POST /api/contact (contact.js): validation (required fields truthy, email
regex, 5-digit postal code), INSERT with createdAt = NOW(), then the
notification attempt whose outcome is caught and logged, and finally 201 with
the generated id.  The outcome parameter records what the transport did. -/
def contactCreate (db : List Contact) (name phone email postalCode : String)
    (newId : Int) (now : Nat) (outcome : EmailOutcome) :
    Nat × List Contact × Option Int :=
  if name = "" || phone = "" || email = "" || postalCode = "" then (400, db, none)
  else if !emailValid email then (400, db, none)
  else if !postalCodeValid postalCode then (400, db, none)
  else
    match outcome with
    | _ =>
      (201,
        db ++ [{ id := newId, name := name, phone := phone, email := email,
                 postalCode := postalCode, createdAt := now }],
        some newId)

/-! ## Blog (blog.js) -/

/-- Request body of POST /api/blog.  published and featured default to false
when absent; image, tags, metaTitle and metaDescription may be absent. -/
structure BlogCreateBody where
  title : String
  slug : String
  excerpt : String
  content : String
  image : Option String
  category : String
  tags : Option String
  metaTitle : Option String
  metaDescription : Option String
  published : Bool
  featured : Bool
deriving Repr, DecidableEq

/-- POST /api/blog (blog.js): required fields truthy, slug-uniqueness check
(SELECT id FROM blog_posts WHERE slug = ?), read time from the stripped
content, then INSERT with metaTitle || title and metaDescription || excerpt
fallbacks, answering 201 with the generated id. -/
def blogCreate (db : List BlogPost) (b : BlogCreateBody) (authorId : Int)
    (newId : Int) (now : Nat) : Nat × List BlogPost × Option Int :=
  if b.title = "" || b.slug = "" || b.excerpt = "" || b.content = "" ||
      b.category = "" then (400, db, none)
  else if db.any (fun p => p.slug == b.slug) then (400, db, none)
  else
    (201,
      db ++ [{ id := newId, title := b.title, slug := b.slug,
               excerpt := b.excerpt, content := b.content, image := b.image,
               category := b.category, tags := b.tags,
               metaTitle := (truthyOpt b.metaTitle).getD b.title,
               metaDescription := (truthyOpt b.metaDescription).getD b.excerpt,
               published := b.published, featured := b.featured,
               readTime := jsReadTime b.content, views := 0,
               authorId := authorId, createdAt := now, updatedAt := now }],
      some newId)

/-- Request body of PUT /api/blog/:id.  An outer none is an absent (undefined)
field.  For image and tags the code tests image !== undefined, so a supplied
null (inner none) is applied as is; for the other string fields the code tests
plain truthiness, handled by truthyOpt at the use sites. -/
structure BlogUpdateBody where
  title : Option String
  slug : Option String
  excerpt : Option String
  content : Option String
  image : Option (Option String)
  category : Option String
  tags : Option (Option String)
  metaTitle : Option String
  metaDescription : Option String
  published : Option Bool
  featured : Option Bool
deriving Repr, DecidableEq

/-- The empty update body (every field absent). -/
def emptyUpdateBody : BlogUpdateBody :=
  ⟨none, none, none, none, none, none, none, none, none, none, none⟩

/-- The dynamic SET clause of PUT /api/blog/:id applied to one row: each
truthy-supplied string field is overwritten, image / tags / published /
featured are overwritten whenever supplied (!== undefined), readTime is
recomputed whenever content is truthy-supplied, and updatedAt = NOW(). -/
def applyBlogUpdate (b : BlogUpdateBody) (now : Nat) (p : BlogPost) : BlogPost :=
  { p with
    title := (truthyOpt b.title).getD p.title,
    slug := (truthyOpt b.slug).getD p.slug,
    excerpt := (truthyOpt b.excerpt).getD p.excerpt,
    content := (truthyOpt b.content).getD p.content,
    image := b.image.getD p.image,
    category := (truthyOpt b.category).getD p.category,
    tags := b.tags.getD p.tags,
    metaTitle := (truthyOpt b.metaTitle).getD p.metaTitle,
    metaDescription := (truthyOpt b.metaDescription).getD p.metaDescription,
    published := b.published.getD p.published,
    featured := b.featured.getD p.featured,
    readTime := match truthyOpt b.content with
      | some c => jsReadTime c
      | none => p.readTime,
    updatedAt := now }

/-- PUT /api/blog/:id (blog.js), after the id parse: when a truthy slug is
supplied, posts with that slug and a different id are searched and a hit
answers 400 before anything is written; then the dynamic UPDATE runs, whose
affectedRows is the number of rows matching the id (updatedAt = NOW() is
always in the SET clause, so every matched row counts as changed), and an
unmatched id answers 404. -/
def blogUpdate (db : List BlogPost) (postId : Int) (b : BlogUpdateBody)
    (now : Nat) : Nat × List BlogPost :=
  if (match truthyOpt b.slug with
      | some s => db.any (fun p => p.slug == s && p.id != postId)
      | none => false) then (400, db)
  else if db.any (fun p => p.id == postId) then
    (200, db.map (fun p => if p.id == postId then applyBlogUpdate b now p else p))
  else (404, db)

/-- The row transformation of UPDATE blog_posts SET views = views + 1
WHERE id = pid. -/
def bumpViews (pid : Int) (db : List BlogPost) : List BlogPost :=
  db.map (fun q => if q.id == pid then { q with views := q.views + 1 } else q)

/-- The related-posts query of GET /api/blog/:slug: same category, different
id, published, ORDER BY createdAt DESC LIMIT 3.  It runs after the views
update, hence over the updated table. -/
def relatedPosts (db : List BlogPost) (post : BlogPost) : List BlogPost :=
  (sortByKeyDesc BlogPost.createdAt
    (db.filter (fun q => q.category == post.category && q.id != post.id &&
      q.published))).take 3

/-- GET /api/blog/:slug (blog.js, public): select the published post with the
slug (404 when none), increment its views (both in the table and in the
returned row), then fetch up to 3 related posts. -/
def blogGetBySlug (db : List BlogPost) (slug : String) :
    Nat × List BlogPost × Option (BlogPost × List BlogPost) :=
  match (db.filter (fun p => p.slug == slug && p.published)).head? with
  | none => (404, db, none)
  | some post =>
    let db' := bumpViews post.id db
    let post' := { post with views := post.views + 1 }
    (200, db', some (post', relatedPosts db' post'))

/-! ## Auth (admin.js) -/

/-- Result of the authenticateToken middleware: 401 (missing token), 403
(jwt.verify rejected the token), or the handler runs with the decoded user. -/
inductive AuthDecision where
  | unauthorized
  | forbidden
  | proceed (token : String)
deriving Repr, DecidableEq

/-- token = authHeader && authHeader.split(' ')[1], with JS truthiness: the
result is none when the header is absent or empty, when the header has no
second space-separated segment, or when that segment is the empty string. -/
def extractBearer (authHeader : Option String) : Option String :=
  match authHeader with
  | none => none
  | some h =>
    if h.data.isEmpty then none
    else
      match (splitCharAux ' ' h.data []).get? 1 with
      | none => none
      | some t => if t.isEmpty then none else some (String.mk t)

/-- The authenticateToken middleware of admin.js: 401 when no truthy token
can be extracted, otherwise jwt.verify decides between 403 and running the
handler.  tokenValid abstracts the signature and expiry check of
jwt.verify(token, secret). -/
def authenticateToken (authHeader : Option String) (tokenValid : String → Bool) :
    AuthDecision :=
  match extractBearer authHeader with
  | none => AuthDecision.unauthorized
  | some t => if tokenValid t then AuthDecision.proceed t else AuthDecision.forbidden

/-- Response of POST /api/admin/auth: the status and the issued token, if any. -/
structure LoginResponse where
  status : Nat
  token : Option String
deriving Repr, DecidableEq

/-- POST /api/admin/auth (admin.js): 400 on missing username or password,
SELECT * FROM admins WHERE username = ? AND active = 1 (401 when empty),
bcrypt.compare against the stored hash (401 on mismatch), and on success a
signed 24h token.  bcryptCompare abstracts the hash comparison and issuedToken
the jwt.sign output. -/
def login (admins : List Admin) (usernameQ passwordQ : Option String)
    (bcryptCompare : String → String → Bool) (issuedToken : String) :
    LoginResponse :=
  match usernameQ, passwordQ with
  | some u, some p =>
    if u = "" || p = "" then ⟨400, none⟩
    else
      match (admins.filter (fun a => a.username == u && a.active)).head? with
      | none => ⟨401, none⟩
      | some a =>
        if bcryptCompare p a.password then ⟨200, some issuedToken⟩
        else ⟨401, none⟩
  | _, _ => ⟨400, none⟩

/-! ## Sample data (used by the concrete instantiations below) -/

/-- A sample review row. -/
def sampleReview (i : Int) (t : Nat) (ap : Bool) : Review :=
  ⟨i, "Ana", "ana@mail.com", 4, "Muy buen servicio", ap, t, t⟩

/-- A sample blog post row (readTime 99 is an arbitrary stored value). -/
def samplePost (i : Int) (slug category : String) (pub : Bool) (t : Nat) : BlogPost :=
  ⟨i, "Title", slug, "Excerpt", "hello world", none, category, none,
    "Title", "Excerpt", pub, false, 99, 0, 1, t, t⟩

/-- A sample admin row with an opaque stored hash. -/
def sampleAdmin : Admin :=
  ⟨1, "admin", "admin@asistecare.com", "storedhash", "Administrador", true⟩

/-! ## Helper lemmas -/

theorem jsOrDefault_ne_zero (v : Option Int) (d : Int) (hd : d ≠ 0) :
    jsOrDefault v d ≠ 0 := by
  cases v with
  | none => simpa [jsOrDefault] using hd
  | some n =>
    by_cases h : n = 0
    · simpa [jsOrDefault, h] using hd
    · simpa [jsOrDefault, h] using h

/-- Case analysis of the parse-and-validate prelude of the admin.js list
handlers: it answers 400 exactly when one of the fallback values is negative
(the fallback can never be 0), and otherwise passes both values on. -/
theorem adminPageLimit_cases (pageQ limitQ : Option String) (d : Int)
    (hd : 1 ≤ d) :
    (adminPageLimit pageQ limitQ d = Except.error 400 ∧
      (jsOrDefault (pageQ.bind jsParseInt) 1 < 0 ∨
        jsOrDefault (limitQ.bind jsParseInt) d < 0)) ∨
    (adminPageLimit pageQ limitQ d =
        Except.ok (jsOrDefault (pageQ.bind jsParseInt) 1,
          jsOrDefault (limitQ.bind jsParseInt) d) ∧
      1 ≤ jsOrDefault (pageQ.bind jsParseInt) 1 ∧
      1 ≤ jsOrDefault (limitQ.bind jsParseInt) d) := by
  have hp := jsOrDefault_ne_zero (pageQ.bind jsParseInt) 1 one_ne_zero
  have hl := jsOrDefault_ne_zero (limitQ.bind jsParseInt) d (by omega)
  simp only [adminPageLimit]
  split
  · next hcond =>
    left
    refine ⟨rfl, ?_⟩
    simp only [Bool.or_eq_true, decide_eq_true_eq] at hcond
    omega
  · next hcond =>
    right
    refine ⟨rfl, ?_⟩
    simp only [Bool.or_eq_true, decide_eq_true_eq, not_or] at hcond
    omega

theorem ceilPages_le_mul (N L : Nat) (hL : 1 ≤ L) : N ≤ L * ceilPages N L := by
  unfold ceilPages
  have hmod := Nat.div_add_mod (N + L - 1) L
  have hm : (N + L - 1) % L < L := Nat.mod_lt _ hL
  generalize hgen : L * ((N + L - 1) / L) = t at hmod ⊢
  generalize hm2 : (N + L - 1) % L = m at hmod hm
  omega

/-- ceilPages agrees with the mathematical ceiling of total / limit. -/
theorem ceilPages_spec (N L : Nat) (hL : 1 ≤ L) :
    ((ceilPages N L : Nat) : ℤ) = ⌈(N : ℚ) / (L : ℚ)⌉ := by
  have hLQ : (0 : ℚ) < (L : ℚ) := by exact_mod_cast hL
  have h1 : N ≤ L * ceilPages N L := ceilPages_le_mul N L hL
  symm
  rw [Int.ceil_eq_iff]
  constructor
  · push_cast
    rw [lt_div_iff hLQ]
    by_cases hN : N = 0
    · subst hN
      have hzero : ceilPages 0 L = 0 := by
        unfold ceilPages
        exact Nat.div_eq_of_lt (by omega)
      rw [hzero]
      push_cast
      nlinarith
    · have hc1 : 1 ≤ ceilPages N L := by
        rcases Nat.eq_zero_or_pos (ceilPages N L) with h | h
        · rw [h, Nat.mul_zero] at h1; omega
        · exact h
      have h2 : L * (ceilPages N L - 1) < N := by
        unfold ceilPages at *
        have hmod := Nat.div_add_mod (N + L - 1) L
        have hm : (N + L - 1) % L < L := Nat.mod_lt _ hL
        rw [Nat.mul_sub, Nat.mul_one]
        generalize hgen : L * ((N + L - 1) / L) = t at hmod ⊢
        generalize hm2 : (N + L - 1) % L = m at hmod hm
        omega
      have h2' : (L : ℚ) * ((ceilPages N L : ℚ) - 1) < N := by
        have hcast : ((L * (ceilPages N L - 1) : ℕ) : ℚ) < (N : ℚ) := by
          exact_mod_cast h2
        rwa [Nat.cast_mul, Nat.cast_sub hc1, Nat.cast_one] at hcast
      nlinarith
  · push_cast
    rw [div_le_iff hLQ]
    have h1' : ((N : ℕ) : ℚ) ≤ ((L * ceilPages N L : ℕ) : ℚ) := by exact_mod_cast h1
    rw [Nat.cast_mul] at h1'
    nlinarith

/-- Number of rows on the last page: N - (ceilPages N L - 1) * L equals
N mod L (or L when N mod L = 0), and is at most L. -/
theorem ceilPages_last (N L : Nat) (hL : 1 ≤ L) (hN : 1 ≤ N) :
    N - (ceilPages N L - 1) * L = (if N % L = 0 then L else N % L) ∧
    N - (ceilPages N L - 1) * L ≤ L := by
  have hL0 : 0 < L := hL
  have hdm := Nat.div_add_mod N L
  have hrlt : N % L < L := Nat.mod_lt _ hL0
  by_cases hr : N % L = 0
  · have hNql : L * (N / L) = N := by omega
    have hq1 : 1 ≤ N / L := by
      rcases Nat.eq_zero_or_pos (N / L) with h | h
      · rw [h, Nat.mul_zero] at hNql; omega
      · exact h
    have hc : ceilPages N L = N / L := by
      unfold ceilPages
      rw [show N + L - 1 = (L - 1) + L * (N / L) from by omega,
        Nat.add_mul_div_left _ _ hL0, Nat.div_eq_of_lt (by omega)]
      omega
    have hLN : L ≤ N := by
      calc L = L * 1 := (Nat.mul_one L).symm
        _ ≤ L * (N / L) := Nat.mul_le_mul_left L hq1
        _ = N := hNql
    rw [hc, Nat.sub_mul, Nat.one_mul, Nat.mul_comm (N / L) L, hNql, if_pos hr]
    omega
  · have hc : ceilPages N L = N / L + 1 := by
      unfold ceilPages
      rw [show N + L - 1 = (N % L - 1) + L * (N / L + 1) from by
          rw [Nat.mul_succ]; omega,
        Nat.add_mul_div_left _ _ hL0, Nat.div_eq_of_lt (by omega)]
      omega
    rw [hc, Nat.add_sub_cancel, Nat.mul_comm (N / L) L, if_neg hr]
    omega

theorem paginate_length {α : Type} (rows : List α) (page limit : Int) :
    (paginate rows page limit).length =
      min limit.toNat (rows.length - ((page - 1) * limit).toNat) := by
  simp [paginate, List.length_take, List.length_drop]

theorem paginate_sublist {α : Type} (rows : List α) (page limit : Int) :
    (paginate rows page limit).Sublist rows :=
  (List.take_sublist _ _).trans (List.drop_sublist _ _)

theorem adminListCore_total {α : Type} (key : α → Nat) (rows : List α)
    (page limit : Int) :
    (adminListCore key rows page limit).2.total = rows.length :=
  rfl

theorem adminListCore_sorted {α : Type} (key : α → Nat) (rows : List α)
    (page limit : Int) :
    (adminListCore key rows page limit).1.Pairwise (fun a b => key b ≤ key a) :=
  List.Pairwise.sublist (paginate_sublist _ _ _) (sortByKeyDesc_pairwise key rows)

theorem adminListCore_ceil {α : Type} (key : α → Nat) (rows : List α)
    (page limit : Int) (hl : 1 ≤ limit) :
    ((adminListCore key rows page limit).2.totalPages : ℤ) =
      ⌈((adminListCore key rows page limit).2.total : ℚ) /
        ((adminListCore key rows page limit).2.limit : ℚ)⌉ := by
  have hL : 1 ≤ limit.toNat := by omega
  have h0l : (0 : ℤ) ≤ limit := by omega
  have hcast : ((adminListCore key rows page limit).2.limit : ℚ) =
      ((limit.toNat : ℕ) : ℚ) := by
    show ((limit : ℤ) : ℚ) = ((limit.toNat : ℕ) : ℚ)
    norm_cast
    exact (Int.toNat_of_nonneg h0l).symm
  rw [hcast]
  exact ceilPages_spec rows.length limit.toNat hL

theorem adminListCore_lastPage {α : Type} (key : α → Nat) (rows : List α)
    (page limit : Int) (hl : 1 ≤ limit) :
    1 ≤ (adminListCore key rows page limit).2.total →
    (adminListCore key rows page limit).2.page =
      ((adminListCore key rows page limit).2.totalPages : Int) →
    (adminListCore key rows page limit).1.length =
      if (adminListCore key rows page limit).2.total %
          (adminListCore key rows page limit).2.limit.toNat = 0
        then (adminListCore key rows page limit).2.limit.toNat
        else (adminListCore key rows page limit).2.total %
          (adminListCore key rows page limit).2.limit.toNat := by
  intro hN hpage
  have hN' : 1 ≤ rows.length := hN
  have hLnat : 1 ≤ limit.toNat := by omega
  have hpc : page = ((ceilPages rows.length limit.toNat : ℕ) : ℤ) := hpage
  have hc1 : 1 ≤ ceilPages rows.length limit.toNat := by
    have hle := ceilPages_le_mul rows.length limit.toNat hLnat
    rcases Nat.eq_zero_or_pos (ceilPages rows.length limit.toNat) with h0 | h0
    · rw [h0, Nat.mul_zero] at hle
      omega
    · exact h0
  have hlL : limit = ((limit.toNat : ℕ) : ℤ) := by omega
  have hoff : ((page - 1) * limit).toNat =
      (ceilPages rows.length limit.toNat - 1) * limit.toNat := by
    have heq : (page - 1) * limit =
        (((ceilPages rows.length limit.toNat - 1) * limit.toNat : ℕ) : ℤ) := by
      rw [hpc]
      nth_rewrite 2 [hlL]
      push_cast [Nat.cast_sub hc1]
      ring
    rw [heq, Int.toNat_natCast]
  show (paginate (sortByKeyDesc key rows) page limit).length = _
  rw [paginate_length, sortByKeyDesc_length, hoff]
  obtain ⟨hval, hle⟩ := ceilPages_last rows.length limit.toNat hLnat hN'
  rw [min_eq_right hle, hval]
  rfl

/-! ## Claim theorems -/

/-- Claim C1, counterexample: the query parameter page = "0" parses to the
non-positive integer 0, yet GET /api/admin/contacts answers it with 200 and
the default page 1 instead of the BadRequest the claim requires, because
parseInt(req.query.page) || 1 treats the parsed 0 as falsy before the
validation runs. -/
theorem contacts_zero_page_not_rejected :
    jsParseInt "0" = some 0 ∧
    adminContactsList [] (some "0") none = Except.ok ([], ⟨1, 20, 0, 0⟩) :=
  ⟨rfl, rfl⟩

/-- Claim C1, amended: on GET /api/admin/contacts and GET /api/admin/reviews a
page or limit that parses to a NEGATIVE integer yields BadRequest 400 (and no
rows); a value parsing to 0, like an unparseable or missing one, silently
falls back to the default (page 1, limit 20), and every non-error request uses
exactly those fallback values, which are at least 1.  GET /api/reviews/admin
performs no such validation at all and never answers 400 (a negative value
there surfaces as 500 from the failed SQL query). -/
theorem admin_list_pagination_validation
    (dbC : List Contact) (dbR : List Review)
    (pageQ limitQ statusQ : Option String) (pageNum limitNum : Option Int) :
    (adminContactsList dbC pageQ limitQ = Except.error 400 ↔
      jsOrDefault (pageQ.bind jsParseInt) 1 < 0 ∨
        jsOrDefault (limitQ.bind jsParseInt) 20 < 0) ∧
    (adminReviewsList dbR pageQ limitQ statusQ = Except.error 400 ↔
      jsOrDefault (pageQ.bind jsParseInt) 1 < 0 ∨
        jsOrDefault (limitQ.bind jsParseInt) 20 < 0) ∧
    (∀ rows info, adminContactsList dbC pageQ limitQ = Except.ok (rows, info) →
      info.page = jsOrDefault (pageQ.bind jsParseInt) 1 ∧
      info.limit = jsOrDefault (limitQ.bind jsParseInt) 20 ∧
      1 ≤ info.page ∧ 1 ≤ info.limit) ∧
    reviewsAdminList dbR pageNum limitNum statusQ ≠ Except.error 400 := by
  rcases adminPageLimit_cases pageQ limitQ 20 (by norm_num) with ⟨herr, hneg⟩ | ⟨hok, hp, hl⟩
  · refine ⟨?_, ?_, ?_, ?_⟩
    · simp [adminContactsList, herr, hneg]
    · simp [adminReviewsList, herr, hneg]
    · intro rows info h
      simp [adminContactsList, herr] at h
    · simp only [reviewsAdminList]
      split
      · simp
      · simp
  · refine ⟨?_, ?_, ?_, ?_⟩
    · simp [adminContactsList, hok]
      omega
    · simp [adminReviewsList, hok]
      omega
    · intro rows info h
      simp only [adminContactsList, hok] at h
      rw [Except.ok.injEq, Prod.mk.injEq] at h
      obtain ⟨-, hinfo⟩ := h
      rw [← hinfo]
      exact ⟨rfl, rfl, hp, hl⟩
    · simp only [reviewsAdminList]
      split
      · simp
      · simp

/-- Claim C1, witness: page = "-1" is rejected with 400 by the admin contacts
route, while the reviews.js admin route never answers 400, not even for a
negative page value. -/
theorem admin_list_pagination_validation_witness :
    adminContactsList [] (some "-1") none = Except.error 400 ∧
    reviewsAdminList [] (some (-1)) none none ≠ Except.error 400 := by
  have h := admin_list_pagination_validation [] [] (some "-1") none none
    (some (-1)) none
  exact ⟨h.1.mpr (by decide), h.2.2.2⟩

/-- Claim C2: every successful GET /api/admin/reviews response satisfies the
pagination-envelope contract: total is the number of rows matching the status
filter, totalPages is the mathematical ceiling of total / limit, the returned
rows are ordered by creation time descending, and - when at least one row
matches and the requested page is the last one - the page holds
total mod limit rows, or limit rows when the remainder is 0. -/
theorem reviews_pagination_envelope
    (db : List Review) (pageQ limitQ statusQ : Option String)
    (rows : List Review) (info : PageInfo)
    (h : adminReviewsList db pageQ limitQ statusQ = Except.ok (rows, info)) :
    info.total = (statusFilter statusQ db).length ∧
    (info.totalPages : ℤ) = ⌈(info.total : ℚ) / (info.limit : ℚ)⌉ ∧
    rows.Pairwise (fun a b => b.createdAt ≤ a.createdAt) ∧
    (1 ≤ info.total → info.page = (info.totalPages : Int) →
      rows.length = if info.total % info.limit.toNat = 0 then info.limit.toNat
        else info.total % info.limit.toNat) := by
  rcases adminPageLimit_cases pageQ limitQ 20 (by norm_num) with ⟨herr, -⟩ | ⟨hok, hp, hl⟩
  · simp [adminReviewsList, herr] at h
  · simp only [adminReviewsList, hok] at h
    rw [Except.ok.injEq] at h
    have hrows := congrArg Prod.fst h
    have hinfo := congrArg Prod.snd h
    simp only at hrows hinfo
    rw [← hrows, ← hinfo]
    exact ⟨adminListCore_total _ _ _ _,
      adminListCore_ceil Review.createdAt _ _ _ hl,
      adminListCore_sorted Review.createdAt _ _ _,
      adminListCore_lastPage Review.createdAt _ _ _ hl⟩

/-- Claim C2, witness: a database of three reviews listed with limit 2 and
page 2 (the last page): totalPages is 2 = ceil(3/2) and the last page holds
3 mod 2 = 1 row, the oldest one. -/
theorem reviews_pagination_envelope_witness :
    adminReviewsList
        [sampleReview 1 10 false, sampleReview 2 20 false, sampleReview 3 5 false]
        (some "2") (some "2") none =
      Except.ok ([sampleReview 3 5 false], ⟨2, 2, 3, 2⟩) ∧
    ((⟨2, 2, 3, 2⟩ : PageInfo).totalPages : ℤ) =
      ⌈((⟨2, 2, 3, 2⟩ : PageInfo).total : ℚ) / ((⟨2, 2, 3, 2⟩ : PageInfo).limit : ℚ)⌉ ∧
    [sampleReview 3 5 false].length =
      (if (⟨2, 2, 3, 2⟩ : PageInfo).total % (⟨2, 2, 3, 2⟩ : PageInfo).limit.toNat = 0
        then (⟨2, 2, 3, 2⟩ : PageInfo).limit.toNat
        else (⟨2, 2, 3, 2⟩ : PageInfo).total % (⟨2, 2, 3, 2⟩ : PageInfo).limit.toNat) := by
  have h := reviews_pagination_envelope
    [sampleReview 1 10 false, sampleReview 2 20 false, sampleReview 3 5 false]
    (some "2") (some "2") none [sampleReview 3 5 false] ⟨2, 2, 3, 2⟩ rfl
  exact ⟨rfl, h.2.1, h.2.2.2 (by norm_num) rfl⟩

/-- Claim C3: a freshly created review is unapproved; approving answers 200
with the current (approved) row and is idempotent - re-running the same
approve call changes nothing and returns the same row; approving never turns
approved from true to false on any row; and an id matching no review answers
404 and leaves the table unchanged. -/
theorem review_approval_lifecycle (db : List Review) (rid : Int) (now : Nat) :
    (∀ name email rating comment newId cnow,
      ∀ r ∈ (reviewCreate db name email rating comment newId cnow).2.1,
        r ∈ db ∨ r.approved = false) ∧
    (∀ db' ret, approveReview db rid now = (200, db', ret) →
      (∃ r, ret = some r ∧ r.approved = true ∧ r.id = rid) ∧
      approveReview db' rid now = (200, db', ret)) ∧
    (∀ st db' ret, approveReview db rid now = (st, db', ret) →
      db'.length = db.length ∧
      ∀ i (h : i < db.length) (h' : i < db'.length),
        (db.get ⟨i, h⟩).approved = true → (db'.get ⟨i, h'⟩).approved = true) ∧
    ((∀ r ∈ db, r.id ≠ rid) → approveReview db rid now = (404, db, none)) := by
  have approveRow_id : ∀ x : Review, (approveRow rid now x).id = x.id := by
    intro x
    unfold approveRow
    split <;> rfl
  have approveRow_idem : ∀ x : Review,
      approveRow rid now (approveRow rid now x) = approveRow rid now x := by
    intro x
    unfold approveRow
    by_cases h : (x.id == rid) = true <;> simp [h]
  refine ⟨?_, ?_, ?_, ?_⟩
  · intro name email rating comment newId cnow r hr
    simp only [reviewCreate] at hr
    repeat' split at hr
    all_goals simp_all
    rcases hr with hr | hr
    · exact Or.inl hr
    · subst hr; exact Or.inr rfl
  · intro db' ret happ
    simp only [approveReview] at happ
    split at happ
    case isTrue hany =>
      rw [Prod.mk.injEq, Prod.mk.injEq] at happ
      obtain ⟨-, hdb, hret⟩ := happ
      obtain ⟨x, hx, hxid⟩ := List.any_eq_true.mp hany
      have hymem : approveRow rid now x ∈ db.map (approveRow rid now) :=
        List.mem_map_of_mem _ hx
      have hyid : ((approveRow rid now x).id == rid) = true := by
        rw [approveRow_id]; exact hxid
      have hfil_props : ∀ y ∈ (db.map (approveRow rid now)).filter
          (fun r => r.id == rid), y.approved = true ∧ y.id = rid := by
        intro y hy
        obtain ⟨hymem', hyid'⟩ := List.mem_filter.mp hy
        obtain ⟨z, hz, hzy⟩ := List.mem_map.mp hymem'
        subst hzy
        unfold approveRow at hyid' ⊢
        split at hyid'
        · simp_all
        · next hzid =>
          rw [beq_iff_eq] at hyid'
          simp only [hyid'] at hzid
          simp at hzid
      constructor
      · cases hfil : (db.map (approveRow rid now)).filter (fun r => r.id == rid) with
        | nil =>
          exact absurd (List.filter_eq_nil_iff.mp hfil _ hymem hyid) (by simp)
        | cons y ys =>
          refine ⟨y, ?_, ?_⟩
          · rw [← hret, hfil]; rfl
          · exact hfil_props y (hfil ▸ List.mem_cons_self y ys)
      · subst hdb
        have hmapmap : (db.map (approveRow rid now)).map (approveRow rid now) =
            db.map (approveRow rid now) := by
          rw [List.map_map]
          exact List.map_congr_left (fun a _ => approveRow_idem a)
        have hany' : (db.map (approveRow rid now)).any (fun r => r.id == rid) = true :=
          List.any_eq_true.mpr ⟨_, hymem, hyid⟩
        simp only [approveReview, hany', if_pos, hmapmap, hret]
    case isFalse hany =>
      rw [Prod.mk.injEq] at happ
      exact absurd happ.1 (by norm_num)
  · intro st db' ret happ
    simp only [approveReview] at happ
    split at happ
    · rw [Prod.mk.injEq, Prod.mk.injEq] at happ
      obtain ⟨-, hdb, -⟩ := happ
      subst hdb
      refine ⟨List.length_map db _, ?_⟩
      intro i h h' hap
      rw [List.get_eq_getElem, List.getElem_map]
      rw [List.get_eq_getElem] at hap
      unfold approveRow
      split
      · rfl
      · exact hap
    · rw [Prod.mk.injEq, Prod.mk.injEq] at happ
      obtain ⟨-, hdb, -⟩ := happ
      subst hdb
      exact ⟨rfl, fun i h h' hap => hap⟩
  · intro hno
    have hany : db.any (fun r => r.id == rid) = false := by
      rw [List.any_eq_false]
      intro x hx
      simp only [beq_iff_eq]
      exact hno x hx
    simp [approveReview, hany]

/-- Claim C3, witness: approving the only review (id 7) at time 5 marks it
approved, and approving a missing id 9 answers 404 leaving the table intact. -/
theorem review_approval_lifecycle_witness :
    approveReview [sampleReview 7 3 false] 9 5 =
      (404, [sampleReview 7 3 false], none) ∧
    (∃ r, (approveReview [sampleReview 7 3 false] 7 5).2.2 = some r ∧
      r.approved = true ∧ r.id = 7) := by
  have h := review_approval_lifecycle [sampleReview 7 3 false] 9 5
  have h2 := review_approval_lifecycle [sampleReview 7 3 false] 7 5
  refine ⟨h.2.2.2 (by decide), ?_⟩
  obtain ⟨⟨r, hret, hap, hid⟩, -⟩ := h2.2.1
    [⟨7, "Ana", "ana@mail.com", 4, "Muy buen servicio", true, 3, 5⟩]
    (some ⟨7, "Ana", "ana@mail.com", 4, "Muy buen servicio", true, 3, 5⟩) rfl
  exact ⟨r, hret, hap, hid⟩

/-- Claim C4, counterexample: updating existing post 1 with a body that
supplies only content (stored readTime 99) succeeds, but the stored readTime -
a field not supplied in the request body - changes to 1, recomputed from the
new content; so an unsupplied field does not retain its prior value. -/
theorem blog_update_changes_unsupplied_readTime :
    blogUpdate [samplePost 1 "x" "salud" true 3] 1
        ⟨none, none, none, some "nuevo contenido breve", none, none, none,
          none, none, none, none⟩ 10 =
      (200, [{ samplePost 1 "x" "salud" true 3 with
        content := "nuevo contenido breve", readTime := 1, updatedAt := 10 }]) ∧
    (samplePost 1 "x" "salud" true 3).readTime = 99 :=
  ⟨rfl, rfl⟩

/-- Claim C4, amended: on a blog-post update, only the supplied fields of the
matched post are changed and every unsupplied field retains its prior value,
except that updatedAt is always refreshed and readTime is recomputed from the
stripped-HTML word count whenever content is supplied; rows with other ids are
untouched.  When no post matches the id the operation fails with 404 - unless
a supplied slug collides with another post's slug, which answers 400 first -
and in every non-200 outcome no row changes. -/
theorem blog_update_partial (db : List BlogPost) (postId : Int)
    (b : BlogUpdateBody) (now : Nat) :
    ((blogUpdate db postId b now).1 ≠ 200 → (blogUpdate db postId b now).2 = db) ∧
    ((match truthyOpt b.slug with
      | some s => ∀ p ∈ db, ¬(p.slug = s ∧ p.id ≠ postId)
      | none => True) →
      (∀ p ∈ db, p.id ≠ postId) →
      blogUpdate db postId b now = (404, db)) ∧
    ((blogUpdate db postId b now).1 = 200 →
      (blogUpdate db postId b now).2 =
        db.map (fun p => if p.id == postId then applyBlogUpdate b now p else p)) ∧
    (∀ p : BlogPost,
      (applyBlogUpdate b now p).updatedAt = now ∧
      (applyBlogUpdate b now p).id = p.id ∧
      (applyBlogUpdate b now p).views = p.views ∧
      (applyBlogUpdate b now p).authorId = p.authorId ∧
      (applyBlogUpdate b now p).createdAt = p.createdAt ∧
      (truthyOpt b.title = none → (applyBlogUpdate b now p).title = p.title) ∧
      (truthyOpt b.slug = none → (applyBlogUpdate b now p).slug = p.slug) ∧
      (truthyOpt b.excerpt = none → (applyBlogUpdate b now p).excerpt = p.excerpt) ∧
      (truthyOpt b.content = none → (applyBlogUpdate b now p).content = p.content ∧
        (applyBlogUpdate b now p).readTime = p.readTime) ∧
      (b.image = none → (applyBlogUpdate b now p).image = p.image) ∧
      (truthyOpt b.category = none → (applyBlogUpdate b now p).category = p.category) ∧
      (b.tags = none → (applyBlogUpdate b now p).tags = p.tags) ∧
      (truthyOpt b.metaTitle = none → (applyBlogUpdate b now p).metaTitle = p.metaTitle) ∧
      (truthyOpt b.metaDescription = none →
        (applyBlogUpdate b now p).metaDescription = p.metaDescription) ∧
      (b.published = none → (applyBlogUpdate b now p).published = p.published) ∧
      (b.featured = none → (applyBlogUpdate b now p).featured = p.featured) ∧
      (∀ c, truthyOpt b.content = some c →
        (applyBlogUpdate b now p).readTime = jsReadTime c)) := by
  refine ⟨?_, ?_, ?_, ?_⟩
  · simp only [blogUpdate]
    split
    · intro _; rfl
    · split
      · intro h; exact absurd rfl h
      · intro _; rfl
  · intro hslug hid
    have hconflict : (match truthyOpt b.slug with
        | some s => db.any (fun p => p.slug == s && p.id != postId)
        | none => false) = false := by
      cases hts : truthyOpt b.slug with
      | none => rfl
      | some s =>
        rw [hts] at hslug
        simp only [List.any_eq_false]
        intro p hp
        have := hslug p hp
        simp only [Bool.and_eq_true, beq_iff_eq, bne_iff_ne] at *
        tauto
    have hany : db.any (fun p => p.id == postId) = false := by
      simp only [List.any_eq_false]
      intro p hp
      simp only [beq_iff_eq]
      exact hid p hp
    simp only [blogUpdate, hconflict, hany]
    rfl
  · simp only [blogUpdate]
    split
    · intro h; exact absurd h (by norm_num)
    · split
      · intro _; rfl
      · intro h; exact absurd h (by norm_num)
  · intro p
    refine ⟨rfl, rfl, rfl, rfl, rfl, ?_, ?_, ?_, ?_, ?_, ?_, ?_, ?_, ?_, ?_, ?_, ?_⟩
    · intro h; simp [applyBlogUpdate, h]
    · intro h; simp [applyBlogUpdate, h]
    · intro h; simp [applyBlogUpdate, h]
    · intro h; exact ⟨by simp [applyBlogUpdate, h], by simp [applyBlogUpdate, h]⟩
    · intro h; simp [applyBlogUpdate, h]
    · intro h; simp [applyBlogUpdate, h]
    · intro h; simp [applyBlogUpdate, h]
    · intro h; simp [applyBlogUpdate, h]
    · intro h; simp [applyBlogUpdate, h]
    · intro h; simp [applyBlogUpdate, h]
    · intro h; simp [applyBlogUpdate, h]
    · intro c h; simp [applyBlogUpdate, h]

/-- Claim C4, witness: an update addressed to the missing id 2 answers 404
leaving the single-post table unchanged, and the update transformation always
refreshes updatedAt. -/
theorem blog_update_partial_witness :
    blogUpdate [samplePost 1 "x" "salud" true 3] 2 emptyUpdateBody 10 =
      (404, [samplePost 1 "x" "salud" true 3]) ∧
    (applyBlogUpdate emptyUpdateBody 10 (samplePost 1 "x" "salud" true 3)).updatedAt = 10 := by
  have h := blog_update_partial [samplePost 1 "x" "salud" true 3] 2 emptyUpdateBody 10
  exact ⟨h.2.1 trivial (by decide), (h.2.2.2 (samplePost 1 "x" "salud" true 3)).1⟩

theorem applyBlogUpdate_slug_none (b : BlogUpdateBody) (now : Nat) (p : BlogPost)
    (h : truthyOpt b.slug = none) : (applyBlogUpdate b now p).slug = p.slug := by
  simp [applyBlogUpdate, h]

theorem applyBlogUpdate_slug_some (b : BlogUpdateBody) (now : Nat) (p : BlogPost)
    (s : String) (h : truthyOpt b.slug = some s) :
    (applyBlogUpdate b now p).slug = s := by
  simp [applyBlogUpdate, h]

/-- Claim C5: creating a post with a slug already present is rejected with 400
and writes nothing; updating a post to a slug used by a different post is
rejected with 400 and changes nothing; updating a post to its own current slug
passes the check (the conflict query excludes the post's own id); and both
operations preserve the uniqueness of slugs across the table. -/
theorem blog_slug_uniqueness (db : List BlogPost) (b : BlogCreateBody)
    (bu : BlogUpdateBody) (authorId newId postId : Int) (now : Nat) :
    ((∃ p ∈ db, p.slug = b.slug) →
      blogCreate db b authorId newId now = (400, db, none)) ∧
    (∀ s, truthyOpt bu.slug = some s → (∃ p ∈ db, p.slug = s ∧ p.id ≠ postId) →
      blogUpdate db postId bu now = (400, db)) ∧
    ((db.map BlogPost.slug).Nodup →
      ∀ p ∈ db, p.id = postId → truthyOpt bu.slug = some p.slug →
      (blogUpdate db postId bu now).1 = 200) ∧
    ((db.map BlogPost.slug).Nodup →
      ((blogCreate db b authorId newId now).2.1.map BlogPost.slug).Nodup) ∧
    ((db.map BlogPost.slug).Nodup → (db.map BlogPost.id).Nodup →
      ((blogUpdate db postId bu now).2.map BlogPost.slug).Nodup) := by
  refine ⟨?_, ?_, ?_, ?_, ?_⟩
  · rintro ⟨p, hp, hs⟩
    simp only [blogCreate]
    split
    · rfl
    · split
      · rfl
      · next hany =>
        exfalso
        rw [Bool.not_eq_true, List.any_eq_false] at hany
        exact hany p hp (by simp [hs])
  · rintro s hts ⟨p, hp, hs, hne⟩
    have hcond : (match truthyOpt bu.slug with
        | some s => db.any (fun q => q.slug == s && q.id != postId)
        | none => false) = true := by
      rw [hts]
      exact List.any_eq_true.mpr ⟨p, hp, by simp [hs, hne]⟩
    simp [blogUpdate, hcond]
  · intro hnd p hp hpid hts
    have hinj := List.inj_on_of_nodup_map hnd
    have hcond : (match truthyOpt bu.slug with
        | some s => db.any (fun q => q.slug == s && q.id != postId)
        | none => false) = false := by
      rw [hts, List.any_eq_false]
      intro q hq
      simp only [Bool.and_eq_true, beq_iff_eq, bne_iff_ne, not_and]
      intro hqs
      have hqp : q = p := hinj hq hp hqs
      simp [hqp, hpid]
    have hany : db.any (fun q => q.id == postId) = true :=
      List.any_eq_true.mpr ⟨p, hp, by simp [hpid]⟩
    simp [blogUpdate, hcond, hany]
  · intro hnd
    simp only [blogCreate]
    split
    · exact hnd
    · split
      · exact hnd
      · next hany =>
        rw [Bool.not_eq_true, List.any_eq_false] at hany
        rw [List.map_append, List.nodup_append]
        refine ⟨hnd, List.nodup_singleton _, ?_⟩
        intro x hx hx2
        obtain ⟨q, hq, hqs⟩ := List.mem_map.mp hx
        have hxb : x = b.slug := by simpa using hx2
        exact absurd (by simp [hqs, hxb] : (q.slug == b.slug) = true) (by simpa using hany q hq)
  · intro hnd hndid
    simp only [blogUpdate]
    split
    · exact hnd
    · next hconf =>
      split
      · have hinjid := List.inj_on_of_nodup_map hndid
        have hinjslug := List.inj_on_of_nodup_map hnd
        have hdbnd : db.Nodup := List.Nodup.of_map _ hndid
        rw [List.map_map]
        refine List.Nodup.map_on ?_ hdbnd
        intro p hp q hq hg
        simp only [Function.comp_apply] at hg
        by_cases hpi : (p.id == postId) = true <;>
          by_cases hqi : (q.id == postId) = true
        · refine hinjid hp hq ?_
          rw [beq_iff_eq] at hpi hqi
          rw [hpi, hqi]
        · rw [if_pos hpi, if_neg hqi] at hg
          cases hts : truthyOpt bu.slug with
          | none =>
            rw [applyBlogUpdate_slug_none bu now p hts] at hg
            exact hinjslug hp hq hg
          | some s =>
            rw [applyBlogUpdate_slug_some bu now p s hts] at hg
            exfalso
            rw [hts, Bool.not_eq_true, List.any_eq_false] at hconf
            have hq' := hconf q hq
            simp only [Bool.and_eq_true, beq_iff_eq, bne_iff_ne, not_and] at hq'
            exact (hq' hg.symm) (by simpa using hqi)
        · rw [if_neg hpi, if_pos hqi] at hg
          cases hts : truthyOpt bu.slug with
          | none =>
            rw [applyBlogUpdate_slug_none bu now q hts] at hg
            exact hinjslug hp hq hg
          | some s =>
            rw [applyBlogUpdate_slug_some bu now q s hts] at hg
            exfalso
            rw [hts, Bool.not_eq_true, List.any_eq_false] at hconf
            have hp' := hconf p hp
            simp only [Bool.and_eq_true, beq_iff_eq, bne_iff_ne, not_and] at hp'
            exact (hp' hg) (by simpa using hpi)
        · rw [if_neg hpi, if_neg hqi] at hg
          exact hinjslug hp hq hg
      · exact hnd

/-- Claim C5, witness: with posts 1 (slug x) and 2 (slug y), creating a new
post with slug x is rejected with 400 and writes nothing, updating post 2 to
slug x is rejected with 400 and changes nothing, and updating post 1 to its
own slug x passes the uniqueness check with status 200. -/
theorem blog_slug_uniqueness_witness :
    blogCreate [samplePost 1 "x" "salud" true 3, samplePost 2 "y" "salud" true 4]
        ⟨"T", "x", "E", "contenido", none, "salud", none, none, none, false, false⟩
        1 5 10 =
      (400, [samplePost 1 "x" "salud" true 3, samplePost 2 "y" "salud" true 4], none) ∧
    blogUpdate [samplePost 1 "x" "salud" true 3, samplePost 2 "y" "salud" true 4] 2
        { emptyUpdateBody with slug := some "x" } 10 =
      (400, [samplePost 1 "x" "salud" true 3, samplePost 2 "y" "salud" true 4]) ∧
    (blogUpdate [samplePost 1 "x" "salud" true 3, samplePost 2 "y" "salud" true 4] 1
        { emptyUpdateBody with slug := some "x" } 10).1 = 200 := by
  have h1 := blog_slug_uniqueness
    [samplePost 1 "x" "salud" true 3, samplePost 2 "y" "salud" true 4]
    ⟨"T", "x", "E", "contenido", none, "salud", none, none, none, false, false⟩
    { emptyUpdateBody with slug := some "x" } 1 5 2 10
  have h2 := blog_slug_uniqueness
    [samplePost 1 "x" "salud" true 3, samplePost 2 "y" "salud" true 4]
    ⟨"T", "x", "E", "contenido", none, "salud", none, none, none, false, false⟩
    { emptyUpdateBody with slug := some "x" } 1 5 1 10
  refine ⟨?_, ?_, ?_⟩
  · exact h1.1 ⟨samplePost 1 "x" "salud" true 3, List.mem_cons_self _ _, rfl⟩
  · exact h1.2.1 "x" rfl
      ⟨samplePost 1 "x" "salud" true 3, List.mem_cons_self _ _, rfl, by decide⟩
  · exact h2.2.2.1 (by decide) (samplePost 1 "x" "salud" true 3)
      (List.mem_cons_self _ _) rfl rfl

/-- Claim C6: fetching a blog post by slug answers 404 and leaves the table
untouched when no published post carries the slug (in particular for an
unpublished post); on success it answers 200, the fetched row's views grow by
exactly 1 both in the response and in the table while every other row is
unchanged, and the response carries at most 3 related posts, all published,
sharing the post's category, distinct from the post itself, and ordered most
recent first. -/
theorem blog_fetch_by_slug (db : List BlogPost) (slug : String) :
    ((∀ p ∈ db, ¬(p.slug = slug ∧ p.published = true)) →
      blogGetBySlug db slug = (404, db, none)) ∧
    (∀ st db' resp, blogGetBySlug db slug = (st, db', resp) →
      ∀ post' rel, resp = some (post', rel) →
      st = 200 ∧
      (∃ p, (db.filter (fun q => q.slug == slug && q.published)).head? = some p ∧
        post' = { p with views := p.views + 1 } ∧
        db' = bumpViews p.id db ∧
        db'.length = db.length ∧
        (∀ i (h : i < db.length) (h' : i < db'.length),
          ((db.get ⟨i, h⟩).id = p.id →
            db'.get ⟨i, h'⟩ =
              { db.get ⟨i, h⟩ with views := (db.get ⟨i, h⟩).views + 1 }) ∧
          ((db.get ⟨i, h⟩).id ≠ p.id → db'.get ⟨i, h'⟩ = db.get ⟨i, h⟩))) ∧
      rel.length ≤ 3 ∧
      (∀ q ∈ rel, q.category = post'.category ∧ q.id ≠ post'.id ∧
        q.published = true) ∧
      rel.Pairwise (fun a b => b.createdAt ≤ a.createdAt)) := by
  constructor
  · intro hnone
    have hfil : db.filter (fun p => p.slug == slug && p.published) = [] := by
      rw [List.filter_eq_nil_iff]
      intro p hp
      simp only [Bool.and_eq_true, beq_iff_eq, not_and]
      intro hs hpub
      exact hnone p hp ⟨hs, hpub⟩
    simp [blogGetBySlug, hfil]
  · intro st db' resp heq post' rel hresp
    cases hfil : (db.filter (fun p => p.slug == slug && p.published)).head? with
    | none =>
      simp only [blogGetBySlug, hfil] at heq
      rw [Prod.mk.injEq, Prod.mk.injEq] at heq
      rw [← heq.2.2] at hresp
      cases hresp
    | some p =>
      simp only [blogGetBySlug, hfil] at heq
      rw [Prod.mk.injEq, Prod.mk.injEq] at heq
      obtain ⟨hst, hdb, hr⟩ := heq
      rw [← hr] at hresp
      rw [Option.some.injEq, Prod.mk.injEq] at hresp
      obtain ⟨hpost, hrel⟩ := hresp
      subst hst
      subst hdb
      refine ⟨rfl, ⟨p, rfl, hpost.symm, rfl, List.length_map db _, ?_⟩, ?_, ?_, ?_⟩
      · intro i h h'
        constructor
        · intro hidp
          simp only [bumpViews, List.get_eq_getElem, List.getElem_map]
          rw [if_pos (by simpa using hidp)]
        · intro hidp
          simp only [bumpViews, List.get_eq_getElem, List.getElem_map]
          rw [if_neg (by simpa using hidp)]
      · rw [← hrel]
        exact List.length_take_le _ _
      · intro q hq
        rw [← hrel] at hq
        have hq2 : q ∈ sortByKeyDesc BlogPost.createdAt
            ((bumpViews p.id db).filter (fun r =>
              r.category == ({ p with views := p.views + 1 } : BlogPost).category &&
              r.id != ({ p with views := p.views + 1 } : BlogPost).id && r.published)) :=
          (List.take_sublist _ _).subset hq
        have hq3 := ((sortByKeyDesc_perm BlogPost.createdAt _).mem_iff).mp hq2
        obtain ⟨-, hcond⟩ := List.mem_filter.mp hq3
        rw [← hpost]
        simp only [Bool.and_eq_true, beq_iff_eq, bne_iff_ne] at hcond
        exact ⟨hcond.1.1, hcond.1.2, hcond.2⟩
      · rw [← hrel]
        exact List.Pairwise.sublist (List.take_sublist _ _)
          (sortByKeyDesc_pairwise BlogPost.createdAt _)

/-- Claim C6, witness: fetching published post 1 (slug x) increments its
views from 0 to 1 and returns the published same-category post 2 as the only
related post; fetching the unpublished post 3 by its slug z answers 404 with
no view change. -/
theorem blog_fetch_by_slug_witness :
    blogGetBySlug [samplePost 1 "x" "salud" true 3, samplePost 2 "y" "salud" true 4,
        samplePost 3 "z" "salud" false 5] "x" =
      (200, [{ samplePost 1 "x" "salud" true 3 with views := 1 },
        samplePost 2 "y" "salud" true 4, samplePost 3 "z" "salud" false 5],
        some ({ samplePost 1 "x" "salud" true 3 with views := 1 },
          [samplePost 2 "y" "salud" true 4])) ∧
    blogGetBySlug [samplePost 3 "z" "salud" false 5] "z" =
      (404, [samplePost 3 "z" "salud" false 5], none) ∧
    [samplePost 2 "y" "salud" true 4].length ≤ 3 := by
  have h := blog_fetch_by_slug [samplePost 3 "z" "salud" false 5] "z"
  have h2 := blog_fetch_by_slug [samplePost 1 "x" "salud" true 3,
    samplePost 2 "y" "salud" true 4, samplePost 3 "z" "salud" false 5] "x"
  refine ⟨rfl, h.1 (by decide), ?_⟩
  exact (h2.2 200
    [{ samplePost 1 "x" "salud" true 3 with views := 1 },
      samplePost 2 "y" "salud" true 4, samplePost 3 "z" "salud" false 5]
    (some ({ samplePost 1 "x" "salud" true 3 with views := 1 },
      [samplePost 2 "y" "salud" true 4])) rfl
    { samplePost 1 "x" "salud" true 3 with views := 1 }
    [samplePost 2 "y" "salud" true 4] rfl).2.2.1

/-- Claim C7: the result of a contact submission - status, stored rows and
returned id - is identical for every notification outcome (send skipped
because the transport is unconfigured, send succeeded, send threw), and for
every valid submission a row with exactly the submitted fields and
createdAt = NOW() is appended and 201 is returned with the generated id. -/
theorem contact_create_stored (db : List Contact)
    (name phone email postalCode : String) (newId : Int) (now : Nat) :
    (∀ o1 o2 : EmailOutcome,
      contactCreate db name phone email postalCode newId now o1 =
        contactCreate db name phone email postalCode newId now o2) ∧
    (name ≠ "" → phone ≠ "" → email ≠ "" → postalCode ≠ "" →
      emailValid email = true → postalCodeValid postalCode = true →
      ∀ outcome, contactCreate db name phone email postalCode newId now outcome =
        (201, db ++ [⟨newId, name, phone, email, postalCode, now⟩], some newId)) := by
  constructor
  · intro o1 o2
    cases o1 <;> cases o2 <;> rfl
  · intro hn hp he hpc hev hpcv outcome
    cases outcome <;> simp [contactCreate, hn, hp, he, hpc, hev, hpcv]

/-- Claim C7, witness: the spec's example submission (Ana, 28001) is stored
and answered 201 even when the notification send fails, and a failing send
produces exactly the same result as a skipped one. -/
theorem contact_create_stored_witness :
    contactCreate [] "Ana" "555-1" "a@b.com" "28001" 1 7 EmailOutcome.failed =
      (201, [⟨1, "Ana", "555-1", "a@b.com", "28001", 7⟩], some 1) ∧
    contactCreate [] "Ana" "555-1" "a@b.com" "28001" 1 7 EmailOutcome.failed =
      contactCreate [] "Ana" "555-1" "a@b.com" "28001" 1 7 EmailOutcome.skipped := by
  have h := contact_create_stored [] "Ana" "555-1" "a@b.com" "28001" 1 7
  exact ⟨h.2 (by decide) (by decide) (by decide) (by decide) (by decide)
    (by decide) EmailOutcome.failed, h.1 EmailOutcome.failed EmailOutcome.skipped⟩

/-- Claim C8: a missing bearer token (absent or empty header, or a header
without a nonempty second space-separated segment) answers 401 and an
extracted token that jwt.verify rejects answers 403, in both cases without
reaching the handler (the decision is never proceed); and a login whose
bcrypt comparison fails against an existing active username answers 401 with
no token issued. -/
theorem auth_error_paths :
    (∀ v : String → Bool,
      authenticateToken none v = AuthDecision.unauthorized) ∧
    (∀ h v, extractBearer (some h) = none →
      authenticateToken (some h) v = AuthDecision.unauthorized) ∧
    (∀ h v t, extractBearer (some h) = some t → v t = false →
      authenticateToken (some h) v = AuthDecision.forbidden) ∧
    (∀ (admins : List Admin) (u p : String) (cmp : String → String → Bool)
        (tok : String) (a : Admin),
      u ≠ "" → p ≠ "" →
      (admins.filter (fun x => x.username == u && x.active)).head? = some a →
      cmp p a.password = false →
      login admins (some u) (some p) cmp tok = ⟨401, none⟩) := by
  refine ⟨?_, ?_, ?_, ?_⟩
  · intro v
    rfl
  · intro h v hex
    simp [authenticateToken, hex]
  · intro h v t hex hv
    simp [authenticateToken, hex, hv]
  · intro admins u p cmp tok a hu hp hfil hcmp
    simp [login, hu, hp, hfil, hcmp]

/-- Claim C8, witness: a syntactically present bearer token rejected by the
verifier answers 403, and a login against the seeded active admin with a
comparison that fails answers 401 with no token. -/
theorem auth_error_paths_witness :
    authenticateToken (some "Bearer abc") (fun _ => false) =
      AuthDecision.forbidden ∧
    login [sampleAdmin] (some "admin") (some "wrongpass") (fun _ _ => false)
      "tok" = ⟨401, none⟩ := by
  have h := auth_error_paths
  exact ⟨h.2.2.1 "Bearer abc" (fun _ => false) "abc" rfl rfl,
    h.2.2.2 [sampleAdmin] "admin" "wrongpass" (fun _ _ => false) "tok"
      sampleAdmin (by decide) (by decide) rfl rfl⟩

/-- Claim C9: the public review listing returns only approved reviews,
ordered by creation time descending, never more than 50 of them, and its
result does not depend on the request's query parameters (it accepts no
pagination input). -/
theorem public_reviews_invariants (db : List Review)
    (q : List (String × String)) :
    (∀ r ∈ publicReviews db q, r.approved = true) ∧
    (publicReviews db q).length ≤ 50 ∧
    (publicReviews db q).Pairwise (fun a b => b.createdAt ≤ a.createdAt) ∧
    (∀ q', publicReviews db q = publicReviews db q') := by
  refine ⟨?_, ?_, ?_, ?_⟩
  · intro r hr
    have hr2 := (List.take_sublist _ _).subset hr
    have hr3 := ((sortByKeyDesc_perm Review.createdAt _).mem_iff).mp hr2
    exact (List.mem_filter.mp hr3).2
  · exact List.length_take_le _ _
  · exact List.Pairwise.sublist (List.take_sublist _ _)
      (sortByKeyDesc_pairwise _ _)
  · intro q'
    rfl

/-- Claim C9, witness: in a table with one approved and one pending review,
the listed approved review is indeed approved and the listing stays within
the 50-row cap. -/
theorem public_reviews_invariants_witness :
    (sampleReview 1 10 true).approved = true ∧
    (publicReviews [sampleReview 1 10 true, sampleReview 2 20 false] []).length ≤ 50 := by
  have h := public_reviews_invariants
    [sampleReview 1 10 true, sampleReview 2 20 false] []
  exact ⟨h.1 (sampleReview 1 10 true) (by decide), h.2.1⟩

/-- Claim C10: the submitted rating string is converted with parseInt before
the range check, so whenever its integer prefix n lies in [1,5] the submission
is accepted (other fields being valid) and the stored rating is n - the
truncated integer, not the submitted value. -/
theorem review_rating_parseInt (db : List Review)
    (name email rating comment : String) (newId : Int) (now : Nat) (n : Int) :
    jsParseInt rating = some n → 1 ≤ n → n ≤ 5 →
    name ≠ "" → email ≠ "" → rating ≠ "" → comment ≠ "" →
    emailValid email = true → 10 ≤ comment.length → comment.length ≤ 1000 →
    reviewCreate db name email rating comment newId now =
      (201, db ++ [⟨newId, name, email, n, comment, false, now, now⟩],
        some newId) := by
  intro hparse h1 h5 hn he hr hc hev hc10 hc1000
  simp only [reviewCreate, hparse]
  rw [if_neg (by simp [hn, he, hr, hc])]
  rw [if_neg (by simp [hev])]
  rw [if_neg (by simp only [Bool.or_eq_true, decide_eq_true_eq]; omega)]
  rw [if_neg (by omega)]
  rw [if_neg (by omega)]

/-- Claim C10, witness: the non-integer rating "4.9" parses to 4, within
[1,5], so the submission is accepted with 201 and the stored rating is 4. -/
theorem review_rating_parseInt_witness :
    jsParseInt "4.9" = some 4 ∧
    reviewCreate [] "Ana" "ana@mail.com" "4.9" "Muy buen servicio" 1 7 =
      (201, [⟨1, "Ana", "ana@mail.com", 4, "Muy buen servicio", false, 7, 7⟩],
        some 1) := by
  have h := review_rating_parseInt [] "Ana" "ana@mail.com" "4.9"
    "Muy buen servicio" 1 7 4
  exact ⟨rfl, h rfl (by decide) (by decide) (by decide) (by decide) (by decide)
    (by decide) (by decide) (by decide) (by decide)⟩

end PaginaCare
